import Mathlib

/-!
Verification development for the core of a record-and-replay debugger
(tracee control, performance-counter engine, syscall buffer, remote-debug
server).  The C++/C sources are shallowly embedded as executable Lean
functions; machine integers are modelled as `Nat`/`Int`, fallible or
aborting code paths as `Option`.
-/

namespace RR

/-! ## Performance counter engine (`hpc.cc`)

`hpc_context` holds the retired-conditional-branch counter.  The raw
hardware counter value is part of the modelled state; `read_counter`
returns it only while the counter is started (the source `read`s the perf
fd; we model the fd's current count as `counter`).  `reset_hpc` closes and
reopens the counter, so a freshly (re)started counter reads 0. -/

structure HpcContext where
  started : Bool
  sample_period : Int
  /-- current raw value of the hardware rbc counter (what `read` on the
  perf fd would return) -/
  counter : Int
  deriving Repr, DecidableEq

/-- Embedding of `read_counter` (hpc.cc): returns 0 if the counter is not started,
otherwise the raw 64-bit value read from the fd. -/
def read_counter (hpc : HpcContext) : Int :=
  if hpc.started then hpc.counter else 0

/-- Embedding of `read_rbc` (hpc.cc): read the rbc counter. -/
def read_rbc (hpc : HpcContext) : Int :=
  read_counter hpc

/-- Embedding of `reset_hpc` (hpc.cc): if started, stop and close all counter fds; set
`sample_period := val`; reopen and enable.  A freshly opened perf counter
reads 0. -/
def reset_hpc (_hpc : HpcContext) (val : Int) : HpcContext :=
  { started := true, sample_period := val, counter := 0 }

/-- The rbc-relevant slice of a `Task`: the accumulated `rbcs` total and
the task's hardware counter context. -/
structure TaskRbc where
  rbcs : Int
  hpc : HpcContext
  deriving Repr, DecidableEq

/-- Embedding of `Task::rbc_count` (hpc.cc:1218-1227): read the raw counter; if the
reading is positive, add it to the stored `rbcs` total and reset the
hardware counter; return the accumulated total. -/
def rbc_count (t : TaskRbc) : Int × TaskRbc :=
  let hpc_rbcs := read_rbc t.hpc
  if hpc_rbcs > 0 then
    let t' : TaskRbc := { rbcs := t.rbcs + hpc_rbcs, hpc := reset_hpc t.hpc 0 }
    (t'.rbcs, t')
  else
    (t.rbcs, t)

/-- Embedding of `Task::set_rbc_count` (hpc.cc). -/
def set_rbc_count (t : TaskRbc) (count : Int) : TaskRbc :=
  { t with rbcs := count }

/-- Environment model: between two inspections the hardware advances the
raw counter by some delta (retired conditional branches). -/
def hw_tick (t : TaskRbc) (d : Int) : TaskRbc :=
  { t with hpc := { t.hpc with counter := t.hpc.counter + d } }

/-! ## Wait-status words (`task.h`)

A wait status is the non-negative 32-bit word reported by `waitpid`. -/

/-- Linux/x86 signal numbers (from `<signal.h>`; the sources use the
macros). -/
def SIGHUP : Nat := 1
def SIGINT : Nat := 2
def SIGQUIT : Nat := 3
def SIGILL : Nat := 4
def SIGTRAP : Nat := 5
def SIGABRT : Nat := 6
def SIGBUS : Nat := 7
def SIGFPE : Nat := 8
def SIGKILL : Nat := 9
def SIGUSR1 : Nat := 10
def SIGSEGV : Nat := 11
def SIGUSR2 : Nat := 12
def SIGPIPE : Nat := 13
def SIGALRM : Nat := 14
def SIGTERM : Nat := 15
def SIGSTKFLT : Nat := 16
def SIGCHLD : Nat := 17
def SIGCONT : Nat := 18
def SIGSTOP : Nat := 19
def SIGTSTP : Nat := 20
def SIGTTIN : Nat := 21
def SIGTTOU : Nat := 22
def SIGURG : Nat := 23
def SIGXCPU : Nat := 24
def SIGXFSZ : Nat := 25
def SIGVTALRM : Nat := 26
def SIGPROF : Nat := 27
def SIGWINCH : Nat := 28
def SIGIO : Nat := 29
def SIGPWR : Nat := 30
def SIGSYS : Nat := 31
/-- glibc reserves the two lowest kernel realtime signals, so
`SIGRTMIN` is 34 at run time. -/
def SIGRTMIN : Nat := 34
def SIGRTMAX : Nat := 64

/-- Macro `WIFSTOPPED(status)` (glibc): the low byte is `0x7f`. -/
def stopped_from_status (status : Nat) : Bool :=
  status &&& 0xff = 0x7f

/-- Embedding of `Task::stop_sig_from_status` (task.h:938-941): asserts the status is
a stop status, then returns `WSTOPSIG(status) = (status >> 8) & 0xff`. -/
def stop_sig_from_status (status : Nat) : Option Nat :=
  if stopped_from_status status then some ((status >>> 8) &&& 0xff) else none

/-- Embedding of `Task::ptrace_event_from_status` (task.h:931-933):
`(0xFF0000 & status) >> 16`. -/
def ptrace_event_from_status (status : Nat) : Nat :=
  (0xFF0000 &&& status) >>> 16

/-- Embedding of `Task::pending_sig_from_status` (hpc.cc:1850-1875).  `none` models the
failed assert inside `stop_sig_from_status` (a non-zero status that is not
a stop status).  The final case `sig & ~0x80` is written `sig &&& 0x7f`,
which is equal because `sig` has already been masked to 8 bits. -/
def pending_sig_from_status (status : Nat) : Option Nat :=
  if status = 0 then
    some 0
  else
    match stop_sig_from_status status with
    | none => none
    | some sig =>
      if sig = SIGTRAP ||| 0x80 then
        some 0
      else if sig = SIGTRAP then
        some (if ptrace_event_from_status status ≠ 0 then 0 else SIGTRAP)
      else
        some (sig &&& 0x7f)

/-! ## Stashed signals (`Task::stash_sig` / `Task::pop_stash_sig`)

The siginfo captured by `PTRACE_GETSIGINFO` is modelled as an opaque bit
pattern (`Nat`); `get_siginfo` is modelled by passing the kernel's current
siginfo value to `stash_sig`. -/

structure TaskStash where
  wait_status : Nat
  stashed_wait_status : Nat
  stashed_si : Nat
  deriving Repr, DecidableEq

/-- Embedding of `Task::has_stashed_sig` (task.h:808): `stashed_wait_status ≠ 0`. -/
def has_stashed_sig (t : TaskStash) : Bool :=
  t.stashed_wait_status ≠ 0

/-- Embedding of `Task::pending_sig` (task.h:536-538). -/
def pending_sig (t : TaskStash) : Option Nat :=
  pending_sig_from_status t.wait_status

/-- Embedding of `Task::stash_sig` (hpc.cc:1613-1622): asserts a signal is pending and
nothing is stashed, then saves the wait status and the current siginfo
`si` (read with `PTRACE_GETSIGINFO`).  `none` models a failed assert. -/
def stash_sig (t : TaskStash) (si : Nat) : Option TaskStash :=
  match pending_sig t with
  | none => none
  | some sig =>
    if sig ≠ 0 ∧ ¬has_stashed_sig t then
      some { t with stashed_wait_status := t.wait_status, stashed_si := si }
    else
      none

/-- Embedding of `Task::pop_stash_sig` (hpc.cc:1624-1631): asserts a stash exists,
forces the wait status back to the stashed one, clears the stash marker,
and returns the saved siginfo.  `none` models a failed assert. -/
def pop_stash_sig (t : TaskStash) : Option (Nat × TaskStash) :=
  if has_stashed_sig t then
    some (t.stashed_si,
          { t with wait_status := t.stashed_wait_status,
                   stashed_wait_status := 0 })
  else
    none

/-! ## Blocked-signal mask and the syscall-buffer `locked` bit

`sig_set_t` is a 64-bit mask; `blocked_sigs` is modelled as a `Nat`.
`SYSCALLBUF_DESCHED_SIGNAL` is defined in `preload/syscall_buffer.h`
(outside the given sources); per the comments in `Task::update_sigmask`
it is SIGSYS. -/

def SYSCALLBUF_DESCHED_SIGNAL : Nat := SIGSYS

/-- The shared syscall-buffer header (`struct syscallbuf_hdr`,
fields used by the given sources). -/
structure SyscallbufHdr where
  num_rec_bytes : Nat
  abort_commit : Bool
  locked : Bool
  deriving Repr, DecidableEq

/-- The sigmask-relevant slice of a `Task`. -/
structure TaskSig where
  blocked_sigs : Nat
  syscallbuf_hdr : Option SyscallbufHdr
  deriving Repr, DecidableEq

/-- Embedding of `Task::is_sig_blocked` (hpc.cc:940-944): `(blocked_sigs >> (sig-1)) & 1`. -/
def is_sig_blocked (t : TaskSig) (sig : Nat) : Bool :=
  (t.blocked_sigs >>> (sig - 1)) &&& 1 = 1

/-- Embedding of `Task::is_desched_sig_blocked` (hpc.cc:2377-2381). -/
def is_desched_sig_blocked (t : TaskSig) : Bool :=
  is_sig_blocked t SYSCALLBUF_DESCHED_SIGNAL

/-- Constants `SIG_BLOCK`, `SIG_UNBLOCK`, `SIG_SETMASK` (from `<signal.h>`). -/
def SIG_BLOCK : Nat := 0
def SIG_UNBLOCK : Nat := 1
def SIG_SETMASK : Nat := 2

/-- Embedding of `Task::update_sigmask` (hpc.cc:1670-1714).  Arguments are the parts of
`regs` the function reads: `how = arg1`, whether `arg2` (the new-set
pointer) is null, whether the syscall result is an error, and the
`sig_set_t` read from the pointer.  `none` models the entry `ASSERT`
failing ("syscallbuf is locked but SIGSYS isn't blocked") or an unknown
`how` (`FATAL`). -/
def update_sigmask (t : TaskSig) (how : Nat) (syscall_failed : Bool)
    (setp_null : Bool) (set : Nat) : Option TaskSig :=
  if syscall_failed ∨ setp_null then
    some t
  else if (match t.syscallbuf_hdr with
           | none => false
           | some hdr => hdr.locked && !is_desched_sig_blocked t) then
    none
  else
    let bs? : Option Nat :=
      if how = SIG_BLOCK then some (t.blocked_sigs ||| set)
      else if how = SIG_UNBLOCK then some (Nat.ldiff t.blocked_sigs set)
      else if how = SIG_SETMASK then some set
      else none
    match bs? with
    | none => none
    | some bs =>
      let t' : TaskSig := { t with blocked_sigs := bs }
      some (match t'.syscallbuf_hdr with
            | none => t'
            | some hdr =>
              { t' with
                syscallbuf_hdr := some { hdr with locked := is_desched_sig_blocked t' } })

/-- Embedding of `Task::init_buffers` (hpc.cc:830-877), restricted to its effect on the
modelled state.  The remote-mapping machinery is I/O; what is relevant
here is that `init_syscall_buffer` installs a freshly zeroed header
(hpc.cc:2232-2234) and that the final statement sets the header's `locked`
bit to `is_desched_sig_blocked()` (hpc.cc:874).  When the syscall buffer
is disabled no header is mapped and the unconditional
`syscallbuf_hdr->locked` store dereferences null, modelled as `none`. -/
def init_buffers (t : TaskSig) (syscallbuf_enabled : Bool) : Option TaskSig :=
  if syscallbuf_enabled then
    let t' : TaskSig := { t with
      syscallbuf_hdr := some { num_rec_bytes := 0, abort_commit := false, locked := false } }
    some { t' with
      syscallbuf_hdr := some { num_rec_bytes := 0, abort_commit := false,
                               locked := is_desched_sig_blocked t' } }
  else
    match t.syscallbuf_hdr with
    | none => none
    | some hdr =>
      some { t with
        syscallbuf_hdr := some { hdr with locked := is_desched_sig_blocked t } }

/-! ## Event stack, trace records and the syscall-buffer flush

`EventType` lists the event variants of the pending-events stack
(`Event` in the sources; the enum lives outside the given sources, the
variants are those named by `task.h` pop helpers and the spec).  The
stack is modelled with its top at the head (the source uses a vector with
the top at the back). -/

inductive EventType
  | EV_SENTINEL
  | EV_NOOP
  | EV_DESCHED
  | EV_SIGNAL
  | EV_SIGNAL_DELIVERY
  | EV_SIGNAL_HANDLER
  | EV_SYSCALL
  | EV_SYSCALL_INTERRUPTION
  | EV_SYSCALLBUF_FLUSH
  deriving Repr, DecidableEq

/-- An `Event`: its type plus the `HAS_EXEC_INFO`/`NO_EXEC_INFO` flag. -/
structure Event where
  type : EventType
  has_exec_info : Bool
  deriving Repr, DecidableEq

/-- What `record_local` / `record_event` append to the trace stream:
a raw-data blob (`struct raw_data`: tagged with the encoded current event
and carrying `num_bytes` of data) or a trace frame (`struct trace_frame`).
Register/counter payloads are not modelled. -/
inductive TraceRec
  | rawData (ev : EventType) (num_bytes : Nat)
  | frame (ev : EventType)
  deriving Repr, DecidableEq

/-- The syscallbuf-flush-relevant slice of a `Task`. -/
structure TaskSB where
  /-- pending-events stack, top at head -/
  pending_events : List Event
  syscallbuf_hdr : Option SyscallbufHdr
  delay_syscallbuf_flush : Bool
  delay_syscallbuf_reset : Bool
  flushed_syscallbuf : Bool
  /-- the trace stream written so far, oldest first -/
  trace : List TraceRec
  deriving Repr, DecidableEq

/-- Embedding of `Task::ev()` (task.h:323-328): the event at the top of the stack;
`none` models calling it on an empty stack (the sentinel invariant rules
that out). -/
def ev_top (t : TaskSB) : Option Event :=
  t.pending_events.head?

/-- Embedding of `Task::push_event` (task.h:566-568). -/
def push_event (t : TaskSB) (e : Event) : TaskSB :=
  { t with pending_events := e :: t.pending_events }

/-- Embedding of `Task::pop_event` (task.h:569-572): asserts the top event has the
expected type, then pops it; `none` models a failed assert. -/
def pop_event (t : TaskSB) (expected : EventType) : Option TaskSB :=
  match t.pending_events with
  | [] => none
  | e :: rest => if e.type = expected then some { t with pending_events := rest }
                 else none

mutual

/-- Embedding of `Task::maybe_flush_syscallbuf` (hpc.cc:2412-2441), with
`Task::record_local` (hpc.cc:1236-1246) and `Task::record_event`
(hpc.cc:1170-1210).  The functions `record_local` and `record_event`
re-enter `maybe_flush_syscallbuf`, which returns immediately because the
flush event has just been pushed; the mutual recursion is resolved with a
fuel argument (fuel 0, which never occurs on the source's call depths,
gives `none`).  The parameter `hdrSize` is
`sizeof(struct syscallbuf_hdr)` (declared in `preload/syscall_buffer.h`,
outside the given sources). -/
def maybe_flush_syscallbufF : Nat → Nat → TaskSB → Option TaskSB
  | 0, _, _ => none
  | fuel + 1, hdrSize, t =>
    if (ev_top t).map Event.type = some .EV_SYSCALLBUF_FLUSH then
      -- Already flushing.
      some t
    else
      match t.syscallbuf_hdr with
      | none => some t
      | some hdr =>
        if hdr.num_rec_bytes = 0 ∨ t.delay_syscallbuf_flush then
          some t
        else
          -- push_event(Event(EV_SYSCALLBUF_FLUSH, NO_EXEC_INFO))
          let t1 := push_event t { type := .EV_SYSCALLBUF_FLUSH, has_exec_info := false }
          match record_localF fuel hdrSize t1 (hdr.num_rec_bytes + hdrSize) with
          | none => none
          | some t2 =>
            match record_current_eventF fuel hdrSize t2 with
            | none => none
            | some t3 =>
              match pop_event t3 .EV_SYSCALLBUF_FLUSH with
              | none => none
              | some t4 =>
                -- assert(!syscallbuf_hdr->abort_commit)
                if hdr.abort_commit then none
                else
                  let hdr' := if t4.delay_syscallbuf_reset then hdr
                              else { hdr with num_rec_bytes := 0 }
                  some { t4 with syscallbuf_hdr := some hdr',
                                 flushed_syscallbuf := true }

/-- Embedding of `Task::record_local`: flush, then append a raw-data record tagged with
the current event and carrying `num_bytes` bytes. -/
def record_localF (fuel hdrSize : Nat) (t : TaskSB) (num_bytes : Nat) :
    Option TaskSB :=
  match maybe_flush_syscallbufF fuel hdrSize t with
  | none => none
  | some t' =>
    match ev_top t' with
    | none => none
    | some e => some { t' with trace := t'.trace ++ [.rawData e.type num_bytes] }

/-- Embedding of `Task::record_event` applied to `ev()` (`record_current_event`):
flush, then append a trace frame for the current event.  The frame's
register/counter payload (only present for exec-info events) is not
modelled. -/
def record_current_eventF (fuel hdrSize : Nat) (t : TaskSB) : Option TaskSB :=
  match ev_top t with
  | none => none
  | some e =>
    match maybe_flush_syscallbufF fuel hdrSize t with
    | none => none
    | some t' => some { t' with trace := t'.trace ++ [.frame e.type] }

end

/-- Embedding of `Task::maybe_flush_syscallbuf` at the call depth that actually occurs
(the re-entrant calls return at the already-flushing guard). -/
def maybe_flush_syscallbuf (hdrSize : Nat) (t : TaskSB) : Option TaskSB :=
  maybe_flush_syscallbufF 2 hdrSize t

/-! ## Hardware watchpoints (`Task::set_debug_regs`) -/

def NUM_X86_WATCHPOINTS : Nat := 4

/-- Watchpoint kinds (`WatchType`; declared outside the given sources,
with the x86 DR7 read/write-field encodings). -/
inductive WatchType
  | WATCH_EXEC
  | WATCH_WRITE
  | WATCH_READWRITE
  deriving Repr, DecidableEq

/-- The two-bit DR7 type field for a `WatchType` (x86: 00 exec, 01 write,
11 read/write). -/
def WatchType.code : WatchType → Nat
  | .WATCH_EXEC => 0
  | .WATCH_WRITE => 1
  | .WATCH_READWRITE => 3

/-- One requested watchpoint (`WatchConfig`; declared outside the given
sources, fields as used by `Task::set_debug_regs`). -/
structure WatchConfig where
  addr : Nat
  num_bytes : Nat
  type : WatchType
  deriving Repr, DecidableEq

/-- Embedding of `num_bytes_to_dr_len` (hpc.cc:1481-1496): `BYTES_1 = 0x00`,
`BYTES_2 = 0x01`, `BYTES_4 = 0x03`, `BYTES_8 = 0x02`; any other size is
FATAL (`none`). -/
def num_bytes_to_dr_len : Nat → Option Nat
  | 1 => some 0x00
  | 2 => some 0x01
  | 4 => some 0x03
  | 8 => some 0x02
  | _ => none

/-- The tracee's x86 debug-register file: the user-area words DR0-DR3
(watch addresses), DR6 (status) and DR7 (control). -/
structure DebugRegFile where
  dr0 : Nat
  dr1 : Nat
  dr2 : Nat
  dr3 : Nat
  dr6 : Nat
  dr7 : Nat
  deriving Repr, DecidableEq

/-- Write of debug register `i` (`PTRACE_POKEUSER` at
`dr_user_word_offset(i)`); registers 4 and 5 do not appear in the
sources. -/
def write_dr (f : DebugRegFile) (i : Nat) (v : Nat) : DebugRegFile :=
  match i with
  | 0 => { f with dr0 := v }
  | 1 => { f with dr1 := v }
  | 2 => { f with dr2 := v }
  | 3 => { f with dr3 := v }
  | _ => f

/-- Read of debug register `i` (for stating what was installed). -/
def dr_read (f : DebugRegFile) (i : Nat) : Nat :=
  match i with
  | 0 => f.dr0
  | 1 => f.dr1
  | 2 => f.dr2
  | 3 => f.dr3
  | _ => 0

/-- DR7 bit-field contribution of slot `i` holding `reg`
(`struct DebugControl` in `Task::set_debug_regs`): local-enable bit
`2*i`, two type bits at `16 + 4*i`, two length bits at `18 + 4*i`;
`none` when the watch size is unsupported (FATAL in
`num_bytes_to_dr_len`). -/
def dr7_slot (i : Nat) (reg : WatchConfig) : Option Nat :=
  (num_bytes_to_dr_len reg.num_bytes).map fun len =>
    (1 <<< (2 * i)) ||| (reg.type.code <<< (16 + 4 * i)) ||| (len <<< (18 + 4 * i))

/-- The packed DR7 value for a watchpoint list starting at slot `i`. -/
def dr7_packed : Nat → List WatchConfig → Option Nat
  | _, [] => some 0
  | i, r :: rest =>
    match dr7_slot i r, dr7_packed (i + 1) rest with
    | some a, some b => some (a ||| b)
    | _, _ => none

/-- Loop of `Task::set_debug_regs` (hpc.cc:1538-1563) plus the final DR7
write.  `fail_addr i` is the oracle for whether the fallible
`PTRACE_POKEUSER` installing watchpoint `i`'s address fails, `fail_dr7`
for the final DR7 write.  `none` models `FATAL` (an unsupported watch
size, or the `default:` arm of the `switch` for a fifth slot). -/
def set_debug_regs_loop (fail_addr : Nat → Bool) (fail_dr7 : Bool) :
    List WatchConfig → Nat → DebugRegFile → Nat → Option (Bool × DebugRegFile)
  | [], _, f, acc =>
    if fail_dr7 then some (false, f) else some (true, { f with dr7 := acc })
  | r :: rest, i, f, acc =>
    if fail_addr i then some (false, f)
    else
      let f1 := write_dr f i r.addr
      if i ≥ NUM_X86_WATCHPOINTS then none
      else
        match dr7_slot i r with
        | none => none
        | some bits => set_debug_regs_loop fail_addr fail_dr7 rest (i + 1) f1 (acc ||| bits)

/-- Embedding of `Task::set_debug_regs` (hpc.cc:1498-1564): zero DR6, zero DR7
(guaranteeing atomicity on failure), reject lists longer than four,
install each watch address while accumulating DR7 fields, finally write
the packed DR7. -/
def set_debug_regs (fail_addr : Nat → Bool) (fail_dr7 : Bool)
    (regs : List WatchConfig) (f : DebugRegFile) : Option (Bool × DebugRegFile) :=
  let f1 := { f with dr6 := 0 }
  let f2 := { f1 with dr7 := 0 }
  if regs.length > NUM_X86_WATCHPOINTS then some (false, f2)
  else set_debug_regs_loop fail_addr fail_dr7 regs 0 f2 0

/-! ## Tracee memory reads (`Task::read_bytes_fallible`) -/

/-- The address space's persistent memory fd plus, as instrumentation,
the number of times `open_mem_fd` has run. -/
structure MemFdState where
  mem_fd : Int
  reopens : Nat
  deriving Repr, DecidableEq

/-- Embedding of `Task::open_mem_fd` (hpc.cc:2151-2180): close any existing fd,
have the tracee open `/proc/self/mem` and pass the fd back.  It never
fails, so the resulting fd is a valid non-negative descriptor (its exact
number is irrelevant; 3 is used). -/
def open_mem_fd (s : MemFdState) : MemFdState :=
  { mem_fd := 3, reopens := s.reopens + 1 }

/-- Embedding of `Task::read_bytes_fallible` (hpc.cc:2514-2540).  `preads` is
the oracle of successive `pread64` outcomes `(nread, errno)`;
`ptrace_nread` is the outcome of the `read_bytes_ptrace` fallback used
when there is no memory fd.  A `(0, 0)` outcome is the stale-fd
condition: the function reopens the fd and retries itself.  `none`
models the negative-size `ASSERT`, or an exhausted oracle (the retry
loop would consume another `pread64`). -/
def read_bytes_fallible (buf_size : Int) (ptrace_nread : Int) :
    MemFdState → List (Int × Nat) → Option (Int × MemFdState)
  | s, preads =>
    if buf_size < 0 then none
    else if buf_size = 0 then some (0, s)
    else if s.mem_fd < 0 then some (ptrace_nread, s)
    else
      match preads with
      | [] => none
      | (nread, err) :: rest =>
        if nread = 0 ∧ err = 0 then
          read_bytes_fallible buf_size ptrace_nread (open_mem_fd s) rest
        else some (nread, s)

/-! ## Remote-debug server (`src/replayer/dbg_gdb.c`)

The protocol engine is embedded at the packet level: a parsed incoming
unit is either the out-of-band interrupt byte or a packet `$<payload>#`,
given as its request character and the payload bytes after it.  The
source parses payloads with C pointer arithmetic inside `inbuf`, and in
two places steps past the payload's NUL terminator; `leftover` supplies
the bytes that follow the payload's terminator in `inbuf` so those reads
are modelled exactly. -/

/-- Request kinds (`DREQ_*`, declared in `share/dbg.h` outside the given
sources; the five set/remove watch variants are consecutive in z-packet
type order). -/
inductive DReqTy
  | DREQ_NONE
  | DREQ_GET_CURRENT_THREAD
  | DREQ_GET_THREAD_LIST
  | DREQ_GET_OFFSETS
  | DREQ_SET_CONTINUE_THREAD
  | DREQ_SET_QUERY_THREAD
  | DREQ_CONTINUE
  | DREQ_STEP
  | DREQ_INTERRUPT
  | DREQ_GET_REGS
  | DREQ_GET_REG
  | DREQ_GET_MEM
  | DREQ_GET_IS_THREAD_ALIVE
  | DREQ_GET_STOP_REASON
  | DREQ_SET_SW_BREAK
  | DREQ_SET_HW_BREAK
  | DREQ_SET_WR_WATCH
  | DREQ_SET_RD_WATCH
  | DREQ_SET_RDWR_WATCH
  | DREQ_REMOVE_SW_BREAK
  | DREQ_REMOVE_HW_BREAK
  | DREQ_REMOVE_WR_WATCH
  | DREQ_REMOVE_RD_WATCH
  | DREQ_REMOVE_RDWR_WATCH
  deriving Repr, DecidableEq

/-- Arithmetic `type + (request == 'Z' ? DREQ_SET_SW_BREAK :
DREQ_REMOVE_SW_BREAK)` of `process_packet`'s z/Z case, spelled as a map
on the five consecutive enum values (`ty ≤ 4` is guaranteed by the
caller's bounds check). -/
def watch_req (zset : Bool) (ty : Nat) : DReqTy :=
  match zset, ty with
  | true, 0 => .DREQ_SET_SW_BREAK
  | true, 1 => .DREQ_SET_HW_BREAK
  | true, 2 => .DREQ_SET_WR_WATCH
  | true, 3 => .DREQ_SET_RD_WATCH
  | true, _ => .DREQ_SET_RDWR_WATCH
  | false, 0 => .DREQ_REMOVE_SW_BREAK
  | false, 1 => .DREQ_REMOVE_HW_BREAK
  | false, 2 => .DREQ_REMOVE_WR_WATCH
  | false, 3 => .DREQ_REMOVE_RD_WATCH
  | false, _ => .DREQ_REMOVE_RDWR_WATCH

/-- The `struct dbg_request` handed to the replay driver (thread ids are
`dbg_threadid_t = long`). -/
structure DbgRequest where
  ty : DReqTy := .DREQ_NONE
  target : Int := 0
  mem_addr : Nat := 0
  mem_len : Nat := 0
  reg : Nat := 0
  deriving Repr, DecidableEq

/-- The protocol-relevant fields of `struct dbg_context`
(dbg_gdb.c:48-68); the I/O buffers are modelled by the packet stream and
the emitted-output list. -/
structure DbgContext where
  req : DbgRequest := {}
  resume_thread : Int := 0
  query_thread : Int := 0
  serving_symbol_lookups : Bool := false
  no_ack : Bool := false
  non_stop : Bool := false
  deriving Repr, DecidableEq

/-- Embedding of `dbg_is_resume_request` (dbg_gdb.c:70-79). -/
def dbg_is_resume_request (req : DbgRequest) : Bool :=
  match req.ty with
  | .DREQ_CONTINUE | .DREQ_STEP => true
  | _ => false

/-- Embedding of `request_needs_immediate_response` (dbg_gdb.c:81-91). -/
def request_needs_immediate_response (req : DbgRequest) : Bool :=
  match req.ty with
  | .DREQ_NONE | .DREQ_CONTINUE | .DREQ_STEP => false
  | _ => true

/-- C `strchr`-then-split idiom of `query`, `set` and `process_vpacket`
(`args = strchr(payload, c); if (args) *args++ = 0;`): the part before
the first occurrence of `c` and, when found, the remainder after it. -/
def strchr_split : List Char → Char → List Char × Option (List Char)
  | [], _ => ([], none)
  | x :: xs, c =>
    if x = c then ([], some xs)
    else
      let r := strchr_split xs c
      (x :: r.1, r.2)

/-- Hexadecimal digit value, as accepted by `strtol`/`strtoul` base 16. -/
def hex_val (c : Char) : Option Nat :=
  if '0' ≤ c ∧ c ≤ '9' then some (c.toNat - '0'.toNat)
  else if 'a' ≤ c ∧ c ≤ 'f' then some (c.toNat - 'a'.toNat + 10)
  else if 'A' ≤ c ∧ c ≤ 'F' then some (c.toNat - 'A'.toNat + 10)
  else none

/-- C `strtoul(s, &endptr, 16)` on the bytes `s`: accumulate hex digits,
stop at the first non-digit, return the value and the `endptr` rest. -/
def parse_hex : List Char → Nat → Nat × List Char
  | [], acc => (acc, [])
  | c :: cs, acc =>
    match hex_val c with
    | some v => parse_hex cs (acc * 16 + v)
    | none => (acc, c :: cs)

/-- Embedding of `parse_threadid` (dbg_gdb.c:527-530): `strtol(str, endptr, 16)`. -/
def parse_threadid (s : List Char) : Int × List Char :=
  let r := parse_hex s 0
  ((r.1 : Int), r.2)

/-- The C string at a buffer cursor: its bytes up to the first NUL. -/
def cstr (s : List Char) : List Char :=
  s.takeWhile (fun c => c ≠ '\x00')

/-- Format `snprintf "%02x"`: lowercase hex, zero-padded to width two. -/
def fmt02x (n : Nat) : String :=
  let s := Nat.toDigits 16 n
  String.mk (if s.length < 2 then '0' :: s else s)

/-- What the server writes to the debugger: a packet (`write_packet`,
on the wire `$payload#xx`), an async notification (`write_async_packet`,
`%payload#xx`), or a hex-encoded ASCII string packet
(`write_hex_encoded_ascii_string`). -/
inductive OutMsg
  | pkt (payload : String)
  | notify (payload : String)
  | hexAscii (s : String)
  deriving Repr, DecidableEq

/-- Outcome of `process_packet`: the updated context, the C return value
(`true` = the driver must act on `dbg->req`; `false` = handled
internally) and the output written; or `fatal()` (process aborts); or
`exit(0)` (packets `D` and `k`). -/
inductive PacketOutcome
  | next (ctx : DbgContext) (ret : Bool) (out : List OutMsg)
  | fatalErr
  | exited
  deriving Repr, DecidableEq

/-- Embedding of `to_gdb_signum` (dbg_gdb.c:542-587): translate a host signal
number to the debugger's numbering; realtime signals first, then the
fixed table; unknown signals are `fatal` (`none`). -/
def to_gdb_signum (sig : Nat) : Option Nat :=
  if SIGRTMIN ≤ sig ∧ sig ≤ SIGRTMAX then some (sig + 12)
  else if sig = 0 then some 0
  else if sig = SIGHUP then some 1
  else if sig = SIGINT then some 2
  else if sig = SIGQUIT then some 3
  else if sig = SIGILL then some 4
  else if sig = SIGTRAP then some 5
  else if sig = SIGABRT then some 6
  else if sig = SIGBUS then some 10
  else if sig = SIGFPE then some 8
  else if sig = SIGKILL then some 9
  else if sig = SIGUSR1 then some 30
  else if sig = SIGSEGV then some 11
  else if sig = SIGUSR2 then some 31
  else if sig = SIGPIPE then some 13
  else if sig = SIGALRM then some 14
  else if sig = SIGTERM then some 15
  else if sig = SIGSTKFLT then some 38
  else if sig = SIGCHLD then some 20
  else if sig = SIGCONT then some 19
  else if sig = SIGSTOP then some 17
  else if sig = SIGTSTP then some 18
  else if sig = SIGTTIN then some 21
  else if sig = SIGTTOU then some 22
  else if sig = SIGURG then some 16
  else if sig = SIGXCPU then some 24
  else if sig = SIGXFSZ then some 25
  else if sig = SIGVTALRM then some 26
  else if sig = SIGPROF then some 27
  else if sig = SIGWINCH then some 28
  else if sig = SIGIO then some 23
  else if sig = SIGPWR then some 32
  else if sig = SIGSYS then some 12
  else none

/-- Embedding of `send_stop_reply_packet` (dbg_gdb.c:589-606):
`"%sT%02xthread:%02x;"` for a non-negative signal (async or plain),
`E01` otherwise; `none` models `to_gdb_signum`'s `fatal`. -/
def send_stop_reply_packet (async : Bool) (pfx : String) (thread : Int)
    (sig : Int) : Option OutMsg :=
  if sig ≥ 0 then
    match to_gdb_signum sig.toNat with
    | none => none
    | some g =>
      let s := pfx ++ "T" ++ fmt02x g ++ "thread:" ++ fmt02x thread.toNat ++ ";"
      some (if async then .notify s else .pkt s)
  else
    some (.pkt "E01")

/-- Embedding of `query` (dbg_gdb.c:409-488): handle a `q` packet.  Returns the
C function's `1` when a `dbg_request` was produced for the driver, `0`
when answered internally. -/
def query (ctx : DbgContext) (payload : List Char) : PacketOutcome :=
  let sp := strchr_split payload ':'
  let name := sp.1
  if name = "C".data then
    .next { ctx with req := { ctx.req with ty := .DREQ_GET_CURRENT_THREAD } }
      true []
  else if name = "Attached".data then
    .next ctx false [.pkt "1"]
  else if name = "fThreadInfo".data then
    .next { ctx with req := { ctx.req with ty := .DREQ_GET_THREAD_LIST } }
      true []
  else if name = "sThreadInfo".data then
    .next ctx false [.pkt "l"]
  else if name = "GetTLSAddr".data then
    .next ctx false [.pkt ""]
  else if name = "Offsets".data then
    .next { ctx with
      req := { ctx.req with ty := .DREQ_GET_OFFSETS, target := ctx.query_thread } }
      true []
  else if name.headD '\x00' = 'P' then
    .next ctx false [.pkt ""]
  else if name = "Supported".data then
    .next ctx false [.pkt "QStartNoAckMode+;QNonStop+", .pkt "QNonStop+"]
  else if name = "Symbol".data then
    .next { ctx with serving_symbol_lookups := true } false [.pkt "OK"]
  else if "ThreadExtraInfo".data.isPrefixOf name then
    .next ctx false [.hexAscii "rr tracee"]
  else if name = "TStatus".data then
    .next ctx false [.pkt ""]
  else
    .next ctx false [.pkt ""]

/-- Embedding of `set` (dbg_gdb.c:490-520): handle a `Q` packet.  `QNonStop`
with a missing argument dereferences NULL in `strcmp`, and any value
other than `"1"` is `fatal`; both are modelled as `fatalErr`. -/
def set (ctx : DbgContext) (payload : List Char) : PacketOutcome :=
  let sp := strchr_split payload ':'
  let name := sp.1
  if name = "StartNoAckMode".data then
    .next { ctx with no_ack := true } false [.pkt "OK"]
  else if name = "NonStop".data then
    match sp.2 with
    | none => .fatalErr
    | some args =>
      if args ≠ "1".data then .fatalErr
      else .next { ctx with non_stop := true } false [.pkt "OK"]
  else
    .next ctx false [.pkt ""]

/-- Embedding of `process_vpacket` (dbg_gdb.c:608-692).  `leftover` is the
`inbuf` content after the payload's NUL terminator: `vCont`'s argument
cursor reads `args[1]` one byte past a lone command character, which can
land on those bytes. -/
def process_vpacket (ctx : DbgContext) (payload : List Char)
    (leftover : List Char) : PacketOutcome :=
  let sp := strchr_split payload ';'
  let name := sp.1
  if name = "Cont".data then
    match sp.2 with
    | none => .fatalErr
    | some args0 =>
      let buf := args0 ++ '\x00' :: leftover
      let cmd := buf.headD '\x00'
      let buf1 := buf.tail
      -- if ('\0' != args[1]) { *args++ = '\0'; } -- the written NUL lands
      -- behind the advanced cursor and is never read again
      let cursor := if buf1.getD 1 '\x00' ≠ '\x00' then buf1.tail else buf1
      if cmd = 'C' ∨ cmd = 'c' then
        .next { ctx with
          req := { ctx.req with ty := .DREQ_CONTINUE, target := ctx.resume_thread } }
          true [.pkt "OK"]
      else if cmd = 's' then
        let pr := parse_threadid cursor
        -- assert('\0' == *args || !strcmp(args, ";c"))
        if ¬(cstr pr.2 = [] ∨ cstr pr.2 = ";c".data) then .fatalErr
        else
          .next { ctx with
            req := { ctx.req with ty := .DREQ_STEP, target := pr.1 } }
            true [.pkt "OK"]
      else if cmd = 't' then
        let pr := parse_threadid cursor
        match send_stop_reply_packet true "Stop:" pr.1 0 with
        | none => .fatalErr
        | some m => .next ctx false [.pkt "OK", m]
      else
        .next ctx false [.pkt ""]
  else if name = "Cont?".data then
    .next ctx false [.pkt "vCont;c;C;s;S;t;"]
  else if name = "Stopped".data then
    .next ctx false [.pkt "OK"]
  else
    .next ctx false [.pkt ""]

/-- A parsed incoming unit: the out-of-band interrupt byte, or a packet
`$<request><payload>#..`, with `leftover` the `inbuf` bytes after the
NUL that `process_packet` writes over the `#`. -/
inductive InPacket
  | interruptChar
  | pkt (request : Char) (payload : List Char) (leftover : List Char)
  deriving Repr, DecidableEq

/-- Embedding of `process_packet` (dbg_gdb.c:694-876) without the final
`consume_request`: `D`, `H`, `q`, `Q` are handled regardless of non-stop
mode; every other request is `fatal` unless non-stop has been
negotiated.  Failed payload asserts are `fatalErr`. -/
def process_packet_core (ctx : DbgContext) (p : InPacket) : PacketOutcome :=
  match p with
  | .interruptChar =>
    if ¬ctx.non_stop then .fatalErr
    else .next { ctx with req := { ctx.req with ty := .DREQ_INTERRUPT } } true []
  | .pkt request payload leftover =>
    if request = 'D' then
      .exited
    else if request = 'H' then
      let buf := payload ++ '\x00' :: leftover
      let ty := if buf.headD '\x00' = 'c' then DReqTy.DREQ_SET_CONTINUE_THREAD
                else DReqTy.DREQ_SET_QUERY_THREAD
      let pr := parse_threadid buf.tail
      if pr.2.headD '\x00' ≠ '\x00' then .fatalErr
      else .next { ctx with
        req := { ctx.req with ty := ty, target := pr.1 } }
        true []
    else if request = 'q' then query ctx payload
    else if request = 'Q' then set ctx payload
    else if ¬ctx.non_stop then .fatalErr
    else if request = 'g' then
      .next { ctx with
        req := { ctx.req with ty := .DREQ_GET_REGS, target := ctx.query_thread } }
        true []
    else if request = 'G' then
      .next ctx false [.pkt ""]
    else if request = 'k' then
      .exited
    else if request = 'm' then
      let buf := payload ++ '\x00' :: leftover
      let pa := parse_hex buf 0
      let pl := parse_hex pa.2.tail 0
      if pl.2.headD '\x00' ≠ '\x00' then .fatalErr
      else .next { ctx with
        req := { ctx.req with ty := .DREQ_GET_MEM, target := ctx.query_thread, mem_addr := pa.1, mem_len := pl.1 } }
        true []
    else if request = 'M' then
      .next ctx false [.pkt ""]
    else if request = 'p' then
      let buf := payload ++ '\x00' :: leftover
      let pr := parse_hex buf 0
      if pr.2.headD '\x00' ≠ '\x00' then .fatalErr
      else .next { ctx with
        req := { ctx.req with ty := .DREQ_GET_REG, target := ctx.query_thread, reg := pr.1 } }
        true []
    else if request = 'P' then
      .next ctx false [.pkt ""]
    else if request = 'T' then
      let buf := payload ++ '\x00' :: leftover
      let pr := parse_threadid buf
      if pr.2.headD '\x00' ≠ '\x00' then .fatalErr
      else .next { ctx with
        req := { ctx.req with ty := .DREQ_GET_IS_THREAD_ALIVE, target := pr.1 } }
        true []
    else if request = 'v' then
      process_vpacket ctx payload leftover
    else if request = 'X' then
      .next ctx false [.pkt ""]
    else if request = 'z' ∨ request = 'Z' then
      let buf := payload ++ '\x00' :: leftover
      let pt := parse_hex buf 0
      if pt.2.headD '\x00' ≠ ',' then .fatalErr
      else if ¬(pt.1 ≤ 4) then
        .next ctx false [.pkt ""]
      else
        let pa := parse_hex pt.2.tail 0
        if pa.2.headD '\x00' ≠ ',' then .fatalErr
        else
          let pl := parse_hex pa.2.tail 0
          if pl.2.headD '\x00' ≠ '\x00' then .fatalErr
          else .next { ctx with
            req := { ctx.req with ty := watch_req (request = 'Z') pt.1, mem_addr := pa.1, mem_len := pl.1 } }
            true []
    else if request = '?' then
      .next { ctx with
        req := { ctx.req with ty := .DREQ_GET_STOP_REASON, target := ctx.query_thread } }
        true []
    else
      .next ctx false [.pkt ""]

/-- Embedding of `process_packet` including the trailing
`if (ret == 0) consume_request(dbg)` (dbg_gdb.c:871-874), which zeroes
`dbg->req` after an internally handled packet. -/
def process_packet (ctx : DbgContext) (p : InPacket) : PacketOutcome :=
  match process_packet_core ctx p with
  | .next c false out => .next { c with req := {} } false out
  | r => r

/-- Packet-processing loop of `dbg_get_request` (dbg_gdb.c:892-905):
process incoming packets until one is not internal, accumulating output;
`none` when the input is exhausted (the source blocks in `read_packet`)
or the process dies. -/
def dbg_get_request_loop :
    DbgContext → List InPacket → List OutMsg →
    Option (DbgRequest × DbgContext × List OutMsg)
  | _, [], _ => none
  | ctx, p :: ps, acc =>
    match process_packet ctx p with
    | .next c true out => some (c.req, c, acc ++ out)
    | .next c false out => dbg_get_request_loop c ps (acc ++ out)
    | _ => none

/-- Embedding of `dbg_get_request` (dbg_gdb.c:878-906): with no new input and a
resume request pending, return it immediately; otherwise read and
process packets until one requires the driver.  `none` models the entry
assert failing, blocking forever, or process death. -/
def dbg_get_request (ctx : DbgContext) (incoming : List InPacket) :
    Option (DbgRequest × DbgContext × List OutMsg) :=
  if request_needs_immediate_response ctx.req then none
  else if incoming.isEmpty ∧ dbg_is_resume_request ctx.req then
    some (ctx.req, ctx, [])
  else dbg_get_request_loop ctx incoming []

end RR

/-! ## Theorems -/

namespace RR

/-- C1: `rbc_count()` is non-decreasing across successive calls: each call
adds the hardware reading (when positive) to the stored `rbcs` total and
then resets the hardware counter, so only the reset may zero the next raw
read, never the accumulated count returned. -/
theorem rbc_count_monotone (t : TaskRbc) (d : Int) :
    t.rbcs ≤ (rbc_count t).1 ∧
    (rbc_count t).2.rbcs = (rbc_count t).1 ∧
    (0 < read_rbc t.hpc →
      (rbc_count t).1 = t.rbcs + read_rbc t.hpc ∧
      (rbc_count t).2.hpc = reset_hpc t.hpc 0 ∧
      read_rbc (rbc_count t).2.hpc = 0) ∧
    (rbc_count t).1 ≤ (rbc_count (hw_tick (rbc_count t).2 d)).1 := by
  have key : ∀ s : TaskRbc,
      s.rbcs ≤ (rbc_count s).1 ∧ (rbc_count s).2.rbcs = (rbc_count s).1 := by
    intro s
    by_cases h : 0 < read_rbc s.hpc
    · simp only [rbc_count, gt_iff_lt, h, if_pos]
      exact ⟨by omega, trivial⟩
    · simp only [rbc_count, gt_iff_lt, h, if_neg, not_false_iff]
      exact ⟨le_refl _, trivial⟩
  refine ⟨(key t).1, (key t).2, ?_, ?_⟩
  · intro h
    have e : rbc_count t = (t.rbcs + read_rbc t.hpc,
        { rbcs := t.rbcs + read_rbc t.hpc, hpc := reset_hpc t.hpc 0 }) := by
      simp only [rbc_count, gt_iff_lt, h, if_pos, reset_hpc]
    rw [e]
    exact ⟨rfl, rfl, by simp [read_rbc, read_counter, reset_hpc]⟩
  · calc (rbc_count t).1 = (rbc_count t).2.rbcs := ((key t).2).symm
      _ = (hw_tick (rbc_count t).2 d).rbcs := rfl
      _ ≤ (rbc_count (hw_tick (rbc_count t).2 d)).1 := (key _).1

/-- C1 witness: a concrete run (counter started, raw reading 7,
accumulated total 3). -/
theorem rbc_count_monotone_witness :
    0 < read_rbc (⟨true, 0, 7⟩ : HpcContext) ∧
    (rbc_count ⟨3, ⟨true, 0, 7⟩⟩).1 = 3 + read_rbc (⟨true, 0, 7⟩ : HpcContext) :=
  ⟨by decide, ((rbc_count_monotone ⟨3, ⟨true, 0, 7⟩⟩ 5).2.2.1 (by decide)).1⟩

/-- C10: `pending_sig_from_status` masks off the high bit (0x80) of the
stop signal for all signals, not only the syscall-trap case: status 0
yields no pending signal, stop signal `SIGTRAP|0x80` yields none, SIGTRAP
with a ptrace event yields none, and any other stop signal is reported
with bit 0x80 cleared (e.g. a SEGV stop with the high bit set is reported
as plain SIGSEGV). -/
theorem pending_sig_clears_high_bit :
    pending_sig_from_status 0 = some 0 ∧
    (∀ status, stopped_from_status status →
      stop_sig_from_status status = some (SIGTRAP ||| 0x80) →
      pending_sig_from_status status = some 0) ∧
    (∀ status, stopped_from_status status →
      stop_sig_from_status status = some SIGTRAP →
      ptrace_event_from_status status ≠ 0 →
      pending_sig_from_status status = some 0) ∧
    (∀ status sig, stopped_from_status status →
      stop_sig_from_status status = some sig →
      sig ≠ SIGTRAP ||| 0x80 →
      (sig = SIGTRAP → ptrace_event_from_status status = 0) →
      pending_sig_from_status status = some (sig &&& 0x7f)) := by
  refine ⟨rfl, ?_, ?_, ?_⟩
  · intro status hstop hsig
    have h0 : status ≠ 0 := by
      intro h; rw [h] at hstop; exact absurd hstop (by decide)
    simp [pending_sig_from_status, h0, hsig]
  · intro status hstop hsig hev
    have h0 : status ≠ 0 := by
      intro h; rw [h] at hstop; exact absurd hstop (by decide)
    simp [pending_sig_from_status, h0, hsig, hev, SIGTRAP]
  · intro status sig hstop hsig hne htrap
    have h0 : status ≠ 0 := by
      intro h; rw [h] at hstop; exact absurd hstop (by decide)
    by_cases ht : sig = SIGTRAP
    · have hev := htrap ht
      subst ht
      simp [pending_sig_from_status, h0, hsig, hne, hev, SIGTRAP]
      decide
    · simp [pending_sig_from_status, h0, hsig, hne, ht]

/-- C10 witness: a SEGV stop word with the high bit set
(`status = ((SIGSEGV|0x80) << 8) | 0x7f = 0x8b7f`) is reported as plain
SIGSEGV. -/
theorem pending_sig_clears_high_bit_witness :
    stopped_from_status 0x8b7f = true ∧
    pending_sig_from_status 0x8b7f = some SIGSEGV :=
  ⟨by decide,
   pending_sig_clears_high_bit.2.2.2 0x8b7f 0x8b (by decide) (by decide)
     (by decide) (by decide)⟩

/-- C4: at a stop with a pending signal and no signal already stashed,
`stash_sig()` followed by `pop_stash_sig()` restores the wait-status word
bit-identically, returns the siginfo captured at stash time bit-identically,
and leaves `has_stashed_sig()` false (`stashed_wait_status` back to 0). -/
theorem stash_pop_roundtrip (t : TaskStash) (si sig : Nat)
    (hpend : pending_sig t = some sig) (hsig : sig ≠ 0)
    (hnostash : t.stashed_wait_status = 0) :
    ∃ t1 popped, stash_sig t si = some t1 ∧
      pop_stash_sig t1 = some popped ∧
      popped.1 = si ∧
      popped.2.wait_status = t.wait_status ∧
      has_stashed_sig popped.2 = false ∧
      popped.2.stashed_wait_status = 0 := by
  have hstatus : t.wait_status ≠ 0 := by
    intro h0
    rw [pending_sig, h0] at hpend
    simp [pending_sig_from_status] at hpend
    exact hsig hpend.symm
  have hns : ¬has_stashed_sig t := by simp [has_stashed_sig, hnostash]
  have h1 : stash_sig t si =
      some { t with stashed_wait_status := t.wait_status, stashed_si := si } := by
    simp [stash_sig, hpend, hsig, hns]
  have h2 : pop_stash_sig
      { t with stashed_wait_status := t.wait_status, stashed_si := si } =
      some (si, { t with wait_status := t.wait_status,
                         stashed_wait_status := 0, stashed_si := si }) := by
    simp [pop_stash_sig, has_stashed_sig, hstatus]
  exact ⟨_, _, h1, h2, rfl, rfl, by simp [has_stashed_sig], rfl⟩

/-- C3: after every blocked-mask-changing `update_sigmask` (SIG_BLOCK,
SIG_UNBLOCK and SIG_SETMASK) on a task with a mapped syscall buffer, and
after `init_buffers`, the syscall-buffer header's `locked` bit equals
whether the desched signal is blocked in the tracee. -/
theorem locked_bit_tracks_desched_blocked (t : TaskSig) (hdr : SyscallbufHdr)
    (how set : Nat)
    (hhdr : t.syscallbuf_hdr = some hdr)
    (hhow : how = SIG_BLOCK ∨ how = SIG_UNBLOCK ∨ how = SIG_SETMASK)
    (hassert : hdr.locked = false ∨ is_desched_sig_blocked t = true) :
    (∃ t', update_sigmask t how false false set = some t' ∧
      t'.syscallbuf_hdr.map SyscallbufHdr.locked =
        some (is_desched_sig_blocked t')) ∧
    (∃ t', init_buffers t true = some t' ∧
      t'.syscallbuf_hdr.map SyscallbufHdr.locked =
        some (is_desched_sig_blocked t')) := by
  have hck : (match t.syscallbuf_hdr with
              | none => false
              | some hdr => hdr.locked && !is_desched_sig_blocked t) = false := by
    rw [hhdr]
    rcases hassert with h | h <;> simp [h]
  have hcong : ∀ a b : TaskSig, a.blocked_sigs = b.blocked_sigs →
      is_desched_sig_blocked a = is_desched_sig_blocked b := by
    intro a b h
    simp [is_desched_sig_blocked, is_sig_blocked, h]
  constructor
  · rcases hhow with h | h | h <;> subst h
    · have e1 : update_sigmask t SIG_BLOCK false false set = some
          (⟨t.blocked_sigs ||| set,
            some ⟨hdr.num_rec_bytes, hdr.abort_commit,
              is_desched_sig_blocked ⟨t.blocked_sigs ||| set, t.syscallbuf_hdr⟩⟩⟩ :
           TaskSig) := by
        simp [update_sigmask, hck, hhdr, SIG_BLOCK]
        intro hl
        exact hassert.elim (fun h => by simp [hl] at h) id
      refine ⟨_, e1, ?_⟩
      simp only [Option.map_some']
      exact congrArg some (hcong _ _ rfl)
    · have e1 : update_sigmask t SIG_UNBLOCK false false set = some
          (⟨Nat.ldiff t.blocked_sigs set,
            some ⟨hdr.num_rec_bytes, hdr.abort_commit,
              is_desched_sig_blocked ⟨Nat.ldiff t.blocked_sigs set, t.syscallbuf_hdr⟩⟩⟩ :
           TaskSig) := by
        simp [update_sigmask, hck, hhdr, SIG_BLOCK, SIG_UNBLOCK]
        intro hl
        exact hassert.elim (fun h => by simp [hl] at h) id
      refine ⟨_, e1, ?_⟩
      simp only [Option.map_some']
      exact congrArg some (hcong _ _ rfl)
    · have e1 : update_sigmask t SIG_SETMASK false false set = some
          (⟨set,
            some ⟨hdr.num_rec_bytes, hdr.abort_commit,
              is_desched_sig_blocked ⟨set, t.syscallbuf_hdr⟩⟩⟩ : TaskSig) := by
        simp [update_sigmask, hck, hhdr, SIG_BLOCK, SIG_UNBLOCK, SIG_SETMASK]
        intro hl
        exact hassert.elim (fun h => by simp [hl] at h) id
      refine ⟨_, e1, ?_⟩
      simp only [Option.map_some']
      exact congrArg some (hcong _ _ rfl)
  · have e2 : init_buffers t true = some
        (⟨t.blocked_sigs,
          some ⟨0, false,
            is_desched_sig_blocked ⟨t.blocked_sigs, some ⟨0, false, false⟩⟩⟩⟩ :
         TaskSig) := by
      simp [init_buffers]
    refine ⟨_, e2, ?_⟩
    simp only [Option.map_some']
    exact congrArg some (hcong _ _ rfl)

/-- C3 witness: a task that blocks SIGSYS (bit 30 of the mask) via
SIG_BLOCK; the header's `locked` bit tracks the blocked desched signal. -/
theorem locked_bit_tracks_desched_blocked_witness :
    (⟨0, some ⟨0, false, false⟩⟩ : TaskSig).syscallbuf_hdr = some ⟨0, false, false⟩ ∧
    ∃ t', update_sigmask ⟨0, some ⟨0, false, false⟩⟩ SIG_BLOCK false false (2 ^ 30)
        = some t' ∧
      t'.syscallbuf_hdr.map SyscallbufHdr.locked =
        some (is_desched_sig_blocked t') :=
  ⟨rfl,
   (locked_bit_tracks_desched_blocked ⟨0, some ⟨0, false, false⟩⟩ ⟨0, false, false⟩
     SIG_BLOCK (2 ^ 30) rfl (Or.inl rfl) (Or.inl rfl)).1⟩

/-- C2: for a task whose header records `B = num_rec_bytes > 0` bytes,
with the delay flags unset and the top event not already a flush,
`maybe_flush_syscallbuf` appends to the trace exactly one
EV_SYSCALLBUF_FLUSH raw-data blob of length `B + sizeof(syscallbuf_hdr)`
followed by its one trace frame, and afterwards the header's
`num_rec_bytes` is 0 (the event stack is restored). -/
theorem maybe_flush_syscallbuf_flushes (hdrSize : Nat) (t : TaskSB)
    (hdr : SyscallbufHdr)
    (hhdr : t.syscallbuf_hdr = some hdr)
    (hB : 0 < hdr.num_rec_bytes)
    (hflush : t.delay_syscallbuf_flush = false)
    (hreset : t.delay_syscallbuf_reset = false)
    (habort : hdr.abort_commit = false)
    (htop : (ev_top t).map Event.type ≠ some .EV_SYSCALLBUF_FLUSH) :
    maybe_flush_syscallbuf hdrSize t = some
      { t with
        trace := t.trace ++
          [.rawData .EV_SYSCALLBUF_FLUSH (hdr.num_rec_bytes + hdrSize),
           .frame .EV_SYSCALLBUF_FLUSH],
        syscallbuf_hdr := some { hdr with num_rec_bytes := 0 },
        flushed_syscallbuf := true } := by
  have hne : ¬(hdr.num_rec_bytes = 0 ∨ t.delay_syscallbuf_flush = true) := by
    simp [hflush]
    omega
  simp only [ev_top] at htop
  simp [maybe_flush_syscallbuf, maybe_flush_syscallbufF, record_localF,
        record_current_eventF, push_event, pop_event, ev_top, hhdr, hne,
        habort, hreset]
  intro x hx hty
  exact absurd (by simp [hx, hty]) htop

/-- C2 witness: header with 5 record bytes, header size 9; one flush blob
of 14 bytes is recorded and `num_rec_bytes` drops to 0. -/
theorem maybe_flush_syscallbuf_flushes_witness :
    maybe_flush_syscallbuf 9
      ⟨[⟨.EV_SENTINEL, false⟩], some ⟨5, false, false⟩, false, false, false, []⟩
      = some ⟨[⟨.EV_SENTINEL, false⟩], some ⟨0, false, false⟩, false, false, true,
              [.rawData .EV_SYSCALLBUF_FLUSH 14, .frame .EV_SYSCALLBUF_FLUSH]⟩ :=
  maybe_flush_syscallbuf_flushes 9
    ⟨[⟨.EV_SENTINEL, false⟩], some ⟨5, false, false⟩, false, false, false, []⟩
    ⟨5, false, false⟩ rfl (by decide) rfl rfl rfl (by decide)

/-- C4 witness: a SIGUSR1 stop (`status = (SIGUSR1 << 8) | 0x7f`) with
siginfo pattern 0xdead. -/
theorem stash_pop_roundtrip_witness :
    pending_sig ⟨0x0a7f, 0, 0⟩ = some SIGUSR1 ∧
    ∃ t1 popped, stash_sig ⟨0x0a7f, 0, 0⟩ 0xdead = some t1 ∧
      pop_stash_sig t1 = some popped ∧
      popped.1 = 0xdead ∧
      popped.2.wait_status = 0x0a7f ∧
      has_stashed_sig popped.2 = false ∧
      popped.2.stashed_wait_status = 0 :=
  ⟨by decide,
   stash_pop_roundtrip ⟨0x0a7f, 0, 0⟩ 0xdead SIGUSR1 (by decide) (by decide) rfl⟩

/-- Helper: `write_dr` leaves DR6 and DR7 alone. -/
lemma write_dr_dr6 (f : DebugRegFile) (i v : Nat) : (write_dr f i v).dr6 = f.dr6 := by
  rcases i with _ | _ | _ | _ | i <;> rfl

/-- Helper: `write_dr` leaves DR7 alone. -/
lemma write_dr_dr7 (f : DebugRegFile) (i v : Nat) : (write_dr f i v).dr7 = f.dr7 := by
  rcases i with _ | _ | _ | _ | i <;> rfl

/-- Helper: reading back the just-written slot. -/
lemma dr_read_write_self (f : DebugRegFile) (i v : Nat) (h : i < 4) :
    dr_read (write_dr f i v) i = v := by
  rcases i with _ | _ | _ | _ | i <;> first | rfl | omega

/-- Helper: writing one slot leaves the others alone. -/
lemma dr_read_write_other (f : DebugRegFile) (i k v : Nat) (h : k ≠ i) :
    dr_read (write_dr f i v) k = dr_read f k := by
  rcases i with _ | _ | _ | _ | i <;> rcases k with _ | _ | _ | _ | k <;>
    simp_all [dr_read, write_dr]

/-- Helper: `dr_read` ignores DR7. -/
lemma dr_read_set_dr7 (f : DebugRegFile) (x k : Nat) :
    dr_read { f with dr7 := x } k = dr_read f k := by
  rcases k with _ | _ | _ | _ | k <;> rfl

/-- Loop invariant for `set_debug_regs_loop`: under valid watch sizes and
at most four total slots, the loop never hits FATAL; it returns `true`
exactly when every address write and the final DR7 write succeed, it
leaves DR7 untouched on failure, and on success DR7 holds the
accumulated packed value and every requested address is installed. -/
lemma set_debug_regs_loop_spec (fa : Nat → Bool) (f7 : Bool) :
    ∀ (regs : List WatchConfig) (i : Nat) (f : DebugRegFile) (acc : Nat),
    (∀ r ∈ regs, num_bytes_to_dr_len r.num_bytes ≠ none) →
    i + regs.length ≤ 4 →
    ∃ ok f', set_debug_regs_loop fa f7 regs i f acc = some (ok, f') ∧
      f'.dr6 = f.dr6 ∧
      (ok = true ↔ (∀ j, j < regs.length → fa (i + j) = false) ∧ f7 = false) ∧
      (ok = false → f'.dr7 = f.dr7) ∧
      (ok = true →
        (∃ bits, dr7_packed i regs = some bits ∧ f'.dr7 = acc ||| bits) ∧
        (∀ j (hj : j < regs.length),
          dr_read f' (i + j) = (regs.get ⟨j, hj⟩).addr) ∧
        (∀ k, k < i → dr_read f' k = dr_read f k))
  | [], i, f, acc, _, _ => by
    by_cases h7 : f7
    · refine ⟨false, f, by simp [set_debug_regs_loop, h7], rfl, ?_, fun _ => rfl, by simp⟩
      simp [h7]
    · refine ⟨true, { f with dr7 := acc }, by simp [set_debug_regs_loop, h7],
        rfl, by simp [h7], by simp, ?_⟩
      intro _
      refine ⟨⟨0, rfl, by simp⟩, ?_, fun k _ => dr_read_set_dr7 f acc k⟩
      intro j hj
      simp at hj
  | r :: rest, i, f, acc, hsizes, hlen => by
    have hlen' : i + rest.length + 1 ≤ 4 := by
      simp only [List.length_cons] at hlen
      omega
    by_cases hfa : fa i
    · refine ⟨false, f, by simp [set_debug_regs_loop, hfa], rfl, ?_, fun _ => rfl,
        by simp⟩
      constructor
      · intro h; cases h
      · rintro ⟨hall, -⟩
        have := hall 0 (by simp)
        simp [hfa] at this
    · have hnum : NUM_X86_WATCHPOINTS = 4 := rfl
      have hi4 : ¬i ≥ NUM_X86_WATCHPOINTS := by omega
      obtain ⟨len, hlenval⟩ : ∃ l, num_bytes_to_dr_len r.num_bytes = some l := by
        cases hnb : num_bytes_to_dr_len r.num_bytes with
        | none => exact absurd hnb (hsizes r (by simp))
        | some l => exact ⟨l, rfl⟩
      have hslot : dr7_slot i r = some
          ((1 <<< (2 * i)) ||| (r.type.code <<< (16 + 4 * i)) ||| (len <<< (18 + 4 * i))) := by
        simp [dr7_slot, hlenval]
      obtain ⟨ok, f', e, hdr6, hiff, hfal, htru⟩ :=
        set_debug_regs_loop_spec fa f7 rest (i + 1) (write_dr f i r.addr)
          (acc ||| ((1 <<< (2 * i)) ||| (r.type.code <<< (16 + 4 * i)) ||| (len <<< (18 + 4 * i))))
          (fun r' hr' => hsizes r' (by simp [hr'])) (by omega)
      refine ⟨ok, f', ?_, hdr6.trans (write_dr_dr6 f i r.addr), ?_, ?_, ?_⟩
      · simp [set_debug_regs_loop, hfa, hi4, hslot, e]
      · rw [hiff]
        constructor
        · rintro ⟨hall, h7⟩
          refine ⟨fun j hj => ?_, h7⟩
          simp only [List.length_cons] at hj
          rcases j with _ | j
          · simpa using (Bool.not_eq_true (fa i)).mp hfa
          · have h := hall j (by omega)
            have heq : i + 1 + j = i + (j + 1) := by omega
            rwa [heq] at h
        · rintro ⟨hall, h7⟩
          refine ⟨fun j hj => ?_, h7⟩
          have h := hall (j + 1) (by simp only [List.length_cons]; omega)
          have heq : i + (j + 1) = i + 1 + j := by omega
          rwa [heq] at h
      · intro hok
        exact (hfal hok).trans (write_dr_dr7 f i r.addr)
      · intro hok
        obtain ⟨⟨bits, hpk, hdr7⟩, hreads, hpres⟩ := htru hok
        refine ⟨?_, ?_, ?_⟩
        · refine ⟨((1 <<< (2 * i)) ||| (r.type.code <<< (16 + 4 * i)) ||| (len <<< (18 + 4 * i))) ||| bits, ?_, ?_⟩
          · simp [dr7_packed, hslot, hpk]
          · rw [hdr7, Nat.lor_assoc]
        · intro j hj
          simp only [List.length_cons] at hj
          rcases j with _ | j
          · have hp := hpres i (by omega)
            simp only [Nat.add_zero] at *
            rw [hp, dr_read_write_self f i r.addr (by omega)]
            rfl
          · have h := hreads j (by omega)
            have heq : i + (j + 1) = i + 1 + j := by omega
            rw [heq]
            exact h
        · intro k hk
          have h := hpres k (by omega)
          rw [h, dr_read_write_other f i k r.addr (by omega)]

/-- C8: `set_debug_regs` is atomic: it returns `true` exactly when the
list has at most four watchpoints and every debug-register write
succeeded — in which case DR7 holds the packed control word enabling
every slot and each requested address is installed — and on any failure
(an over-long list or any failing write) it returns `false` with the
debug-control register DR7 zeroed, so no watchpoints are enabled. -/
theorem set_debug_regs_atomic (fa : Nat → Bool) (f7 : Bool)
    (regs : List WatchConfig) (f : DebugRegFile)
    (hsizes : ∀ r ∈ regs, num_bytes_to_dr_len r.num_bytes ≠ none) :
    ∃ ok f', set_debug_regs fa f7 regs f = some (ok, f') ∧
      (ok = true ↔ regs.length ≤ NUM_X86_WATCHPOINTS ∧
        (∀ i, i < regs.length → fa i = false) ∧ f7 = false) ∧
      (ok = false → f'.dr7 = 0) ∧
      (ok = true → dr7_packed 0 regs = some f'.dr7 ∧
        ∀ j (hj : j < regs.length), dr_read f' j = (regs.get ⟨j, hj⟩).addr) := by
  have hnum : NUM_X86_WATCHPOINTS = 4 := rfl
  by_cases hlen : regs.length > NUM_X86_WATCHPOINTS
  · refine ⟨false, { f with dr6 := 0, dr7 := 0 },
      by simp [set_debug_regs, hlen], ?_, fun _ => rfl, by simp⟩
    constructor
    · intro h; cases h
    · rintro ⟨h, -⟩
      omega
  · obtain ⟨ok, f', e, hdr6, hiff, hfal, htru⟩ :=
      set_debug_regs_loop_spec fa f7 regs 0
        { { f with dr6 := 0 } with dr7 := 0 } 0 hsizes (by omega)
    refine ⟨ok, f', ?_, ?_, ?_, ?_⟩
    · simp [set_debug_regs, hlen, e]
    · rw [hiff]
      constructor
      · rintro ⟨hall, h7⟩
        exact ⟨by omega, by simpa using hall, h7⟩
      · rintro ⟨-, hall, h7⟩
        exact ⟨by simpa using hall, h7⟩
    · intro hok
      exact hfal hok
    · intro hok
      obtain ⟨⟨bits, hpk, hdr7⟩, hreads, -⟩ := htru hok
      refine ⟨?_, by simpa using hreads⟩
      rw [hpk, hdr7]
      simp

/-- C8 witness: two valid watchpoints, all writes succeeding: result true
with both installed; and the same list with the DR7 write failing:
result false with DR7 = 0. -/
theorem set_debug_regs_atomic_witness :
    (∀ r ∈ [(⟨0x1000, 4, .WATCH_WRITE⟩ : WatchConfig), ⟨0x2000, 1, .WATCH_EXEC⟩],
      num_bytes_to_dr_len r.num_bytes ≠ none) ∧
    ∃ ok f', set_debug_regs (fun _ => false) false
        [⟨0x1000, 4, .WATCH_WRITE⟩, ⟨0x2000, 1, .WATCH_EXEC⟩] ⟨0, 0, 0, 0, 0, 0⟩
        = some (ok, f') ∧
      (ok = true ↔ ([(⟨0x1000, 4, .WATCH_WRITE⟩ : WatchConfig), ⟨0x2000, 1, .WATCH_EXEC⟩].length ≤ NUM_X86_WATCHPOINTS ∧
        (∀ i, i < [(⟨0x1000, 4, .WATCH_WRITE⟩ : WatchConfig), ⟨0x2000, 1, .WATCH_EXEC⟩].length → (fun _ => false) i = false) ∧ false = false)) ∧
      (ok = false → f'.dr7 = 0) ∧
      (ok = true → dr7_packed 0 [⟨0x1000, 4, .WATCH_WRITE⟩, ⟨0x2000, 1, .WATCH_EXEC⟩] = some f'.dr7 ∧
        ∀ j (hj : j < [(⟨0x1000, 4, .WATCH_WRITE⟩ : WatchConfig), ⟨0x2000, 1, .WATCH_EXEC⟩].length),
          dr_read f' j = ([(⟨0x1000, 4, .WATCH_WRITE⟩ : WatchConfig), ⟨0x2000, 1, .WATCH_EXEC⟩].get ⟨j, hj⟩).addr) :=
  ⟨by decide,
   set_debug_regs_atomic (fun _ => false) false
     [⟨0x1000, 4, .WATCH_WRITE⟩, ⟨0x2000, 1, .WATCH_EXEC⟩] ⟨0, 0, 0, 0, 0, 0⟩
     (by decide)⟩

/-- C9: on a read of a mapped range (positive size) through a valid
memory fd, when the positional read hits the stale-fd condition (0 bytes
with errno 0) and the fd is fresh after reopening, `read_bytes_fallible`
transparently reopens the fd exactly once and returns the retried read's
result, so the caller never observes the spurious zero-length read. -/
theorem read_bytes_reopens_once (s : MemFdState) (buf_size pt nread : Int)
    (err : Nat) (rest : List (Int × Nat))
    (hfd : 0 ≤ s.mem_fd) (hsz : 0 < buf_size)
    (hgood : ¬(nread = 0 ∧ err = 0)) :
    read_bytes_fallible buf_size pt s ((0, 0) :: (nread, err) :: rest)
      = some (nread, open_mem_fd s) ∧
    (open_mem_fd s).reopens = s.reopens + 1 ∧
    0 ≤ (open_mem_fd s).mem_fd := by
  have h1 : ¬buf_size < 0 := by omega
  have h2 : buf_size ≠ 0 := by omega
  have h3 : ¬s.mem_fd < 0 := by omega
  refine ⟨?_, rfl, by simp [open_mem_fd]⟩
  rw [read_bytes_fallible]
  simp only [if_neg h1, if_neg h2, if_neg h3]
  rw [read_bytes_fallible]
  simp [open_mem_fd, hgood, h1, h2]

/-- C9 witness: stale read `(0,0)` followed by a good 16-byte read. -/
theorem read_bytes_reopens_once_witness :
    (0 : Int) ≤ (⟨5, 0⟩ : MemFdState).mem_fd ∧
    read_bytes_fallible 16 0 ⟨5, 0⟩ [(0, 0), (16, 0)] = some (16, open_mem_fd ⟨5, 0⟩) :=
  ⟨by decide,
   (read_bytes_reopens_once ⟨5, 0⟩ 16 0 16 0 [] (by decide) (by decide)
     (by decide)).1⟩


/-- C7: the signal translation maps every host signal of the table to
exactly the listed debugger number, and every realtime signal
`SIGRTMIN ≤ sig ≤ SIGRTMAX` to `sig + 12`. -/
theorem to_gdb_signum_table :
    (∀ sig, SIGRTMIN ≤ sig → sig ≤ SIGRTMAX → to_gdb_signum sig = some (sig + 12)) ∧
    (to_gdb_signum SIGHUP = some 1 ∧ to_gdb_signum SIGINT = some 2 ∧
     to_gdb_signum SIGQUIT = some 3 ∧ to_gdb_signum SIGILL = some 4 ∧
     to_gdb_signum SIGTRAP = some 5 ∧ to_gdb_signum SIGABRT = some 6 ∧
     to_gdb_signum SIGBUS = some 10 ∧ to_gdb_signum SIGFPE = some 8 ∧
     to_gdb_signum SIGKILL = some 9 ∧ to_gdb_signum SIGSEGV = some 11 ∧
     to_gdb_signum SIGPIPE = some 13 ∧ to_gdb_signum SIGALRM = some 14 ∧
     to_gdb_signum SIGTERM = some 15 ∧ to_gdb_signum SIGUSR1 = some 30 ∧
     to_gdb_signum SIGUSR2 = some 31 ∧ to_gdb_signum SIGSTKFLT = some 38 ∧
     to_gdb_signum SIGCHLD = some 20 ∧ to_gdb_signum SIGCONT = some 19 ∧
     to_gdb_signum SIGSTOP = some 17 ∧ to_gdb_signum SIGTSTP = some 18 ∧
     to_gdb_signum SIGTTIN = some 21 ∧ to_gdb_signum SIGTTOU = some 22 ∧
     to_gdb_signum SIGURG = some 16 ∧ to_gdb_signum SIGXCPU = some 24 ∧
     to_gdb_signum SIGXFSZ = some 25 ∧ to_gdb_signum SIGVTALRM = some 26 ∧
     to_gdb_signum SIGPROF = some 27 ∧ to_gdb_signum SIGWINCH = some 28 ∧
     to_gdb_signum SIGIO = some 23 ∧ to_gdb_signum SIGPWR = some 32 ∧
     to_gdb_signum SIGSYS = some 12) := by
  constructor
  · intro sig h1 h2
    simp [to_gdb_signum, h1, h2]
  · decide

/-- C7 witness: the realtime signal 40 maps to 52. -/
theorem to_gdb_signum_table_witness :
    SIGRTMIN ≤ 40 ∧ 40 ≤ SIGRTMAX ∧ to_gdb_signum 40 = some 52 :=
  ⟨by decide, by decide, to_gdb_signum_table.1 40 (by decide) (by decide)⟩

/-- C5 counterexample: the claim puts `qC` in the internal set, saying the
server answers it immediately and does not surface a request.  In fact
processing `$qC#..` writes no reply, returns 1 with
`DREQ_GET_CURRENT_THREAD` recorded, and `dbg_get_request` returns that
request to the replay driver. -/
theorem query_qC_not_internal :
    process_packet {} (.pkt 'q' "C".data []) =
      .next { req := { ty := .DREQ_GET_CURRENT_THREAD } } true [] ∧
    dbg_get_request {} [.pkt 'q' "C".data []] =
      some ({ ty := .DREQ_GET_CURRENT_THREAD },
            { req := { ty := .DREQ_GET_CURRENT_THREAD } }, []) :=
  ⟨rfl, rfl⟩

/-- C5 (amended): `qSupported`, `qAttached`, `qTStatus`, `qSymbol`,
`QStartNoAckMode` and `QNonStop` are answered immediately by the server
itself without surfacing a request, regardless of non-stop mode; the
memory-write packets `G`, `M`, `X`, `P` and the packets `vCont?` and
`vStopped` are likewise answered internally (memory writes with an empty
reply), but only once non-stop mode has been negotiated — before that
they are a fatal protocol error; `qC`, `qfThreadInfo` and `H` are not
internal: they record a `dbg_request` that is returned to the replay
driver. -/
theorem internal_packets_answered_immediately (ctx : DbgContext)
    (leftover pG pM pX pP : List Char) :
    (process_packet ctx (.pkt 'q' "Supported:multiprocess+".data leftover) =
      .next { ctx with req := {} } false
        [.pkt "QStartNoAckMode+;QNonStop+", .pkt "QNonStop+"]) ∧
    (process_packet ctx (.pkt 'q' "Attached".data leftover) =
      .next { ctx with req := {} } false [.pkt "1"]) ∧
    (process_packet ctx (.pkt 'q' "TStatus".data leftover) =
      .next { ctx with req := {} } false [.pkt ""]) ∧
    (process_packet ctx (.pkt 'q' "Symbol::".data leftover) =
      .next { ctx with serving_symbol_lookups := true, req := {} } false
        [.pkt "OK"]) ∧
    (process_packet ctx (.pkt 'Q' "StartNoAckMode".data leftover) =
      .next { ctx with no_ack := true, req := {} } false [.pkt "OK"]) ∧
    (process_packet ctx (.pkt 'Q' "NonStop:1".data leftover) =
      .next { ctx with non_stop := true, req := {} } false [.pkt "OK"]) ∧
    (ctx.non_stop = true →
      (process_packet ctx (.pkt 'G' pG leftover) =
        .next { ctx with req := {} } false [.pkt ""]) ∧
      (process_packet ctx (.pkt 'M' pM leftover) =
        .next { ctx with req := {} } false [.pkt ""]) ∧
      (process_packet ctx (.pkt 'X' pX leftover) =
        .next { ctx with req := {} } false [.pkt ""]) ∧
      (process_packet ctx (.pkt 'P' pP leftover) =
        .next { ctx with req := {} } false [.pkt ""]) ∧
      (process_packet ctx (.pkt 'v' "Cont?".data leftover) =
        .next { ctx with req := {} } false [.pkt "vCont;c;C;s;S;t;"]) ∧
      (process_packet ctx (.pkt 'v' "Stopped".data leftover) =
        .next { ctx with req := {} } false [.pkt "OK"])) ∧
    (ctx.non_stop = false →
      process_packet ctx (.pkt 'G' pG leftover) = .fatalErr ∧
      process_packet ctx (.pkt 'M' pM leftover) = .fatalErr ∧
      process_packet ctx (.pkt 'X' pX leftover) = .fatalErr ∧
      process_packet ctx (.pkt 'P' pP leftover) = .fatalErr ∧
      process_packet ctx (.pkt 'v' "Cont?".data leftover) = .fatalErr ∧
      process_packet ctx (.pkt 'v' "Stopped".data leftover) = .fatalErr) ∧
    (process_packet ctx (.pkt 'q' "C".data leftover) =
      .next { ctx with req := { ctx.req with ty := .DREQ_GET_CURRENT_THREAD } }
        true []) ∧
    (process_packet ctx (.pkt 'q' "fThreadInfo".data leftover) =
      .next { ctx with req := { ctx.req with ty := .DREQ_GET_THREAD_LIST } }
        true []) ∧
    (process_packet ctx (.pkt 'H' "g0".data leftover) =
      .next { ctx with
        req := { ctx.req with ty := .DREQ_SET_QUERY_THREAD, target := 0 } }
        true []) := by
  obtain ⟨⟨ty, tg, ma, ml, rg⟩, rt, qt, ssl, na, ns⟩ := ctx
  refine ⟨rfl, rfl, rfl, rfl, rfl, rfl, ?_, ?_, rfl, rfl, rfl⟩
  · intro h
    have h1 : ns = true := h
    subst h1
    exact ⟨rfl, rfl, rfl, rfl, rfl, rfl⟩
  · intro h
    have h1 : ns = false := h
    subst h1
    exact ⟨rfl, rfl, rfl, rfl, rfl, rfl⟩

/-- C5 (amended) witness: in a non-stop context, a memory-write `M`
packet is answered with the empty (unsupported) reply and surfaces
nothing. -/
theorem internal_packets_answered_immediately_witness :
    ({ non_stop := true } : DbgContext).non_stop = true ∧
    process_packet { non_stop := true } (.pkt 'M' "1000,4:ff".data []) =
      .next { non_stop := true } false [.pkt ""] :=
  ⟨rfl,
   ((internal_packets_answered_immediately { non_stop := true } []
      [] "1000,4:ff".data [] []).2.2.2.2.2.2.1 rfl).2.1⟩

/-- C6 counterexample: in a non-stop context, the bare resume packet `c`
is not handled as a resume request: the server answers it with the empty
"unsupported" reply, records nothing, and `dbg_get_request` does not
return control to the driver (it keeps waiting for input); and
`vCont;t:2a` writes `OK` plus an async stop notification but records no
request and does not return control either. -/
theorem bare_c_resume_not_supported :
    process_packet { non_stop := true } (.pkt 'c' [] []) =
      .next { non_stop := true } false [.pkt ""] ∧
    dbg_get_request { non_stop := true } [.pkt 'c' [] []] = none ∧
    process_packet { non_stop := true } (.pkt 'v' "Cont;t:2a".data []) =
      .next { non_stop := true } false
        [.pkt "OK", .notify "Stop:T00thread:2a;"] :=
  ⟨rfl, rfl, rfl⟩

/-- C6 (amended): with non-stop negotiated, `vCont;c` and `vCont;s` write
an `OK` reply, record the request kind (continue resp. step) with its
target thread in the pending `dbg_request`, and return control from
`dbg_get_request` to the replay driver.  `vCont;t` instead replies `OK`
plus an async `Stop` notification, records nothing and stays internal;
the bare packets `c` and `s` are unhandled (empty reply, internal). -/
theorem resume_requests_record_and_return (ctx : DbgContext)
    (leftover : List Char)
    (hns : ctx.non_stop = true) (hty : ctx.req.ty = .DREQ_NONE) :
    (process_packet ctx (.pkt 'v' "Cont;c".data leftover) =
      .next { ctx with
        req := { ctx.req with ty := .DREQ_CONTINUE, target := ctx.resume_thread } }
        true [.pkt "OK"]) ∧
    (process_packet ctx (.pkt 'v' "Cont;s:2a;c".data leftover) =
      .next { ctx with req := { ctx.req with ty := .DREQ_STEP, target := 0x2a } }
        true [.pkt "OK"]) ∧
    (dbg_get_request ctx [.pkt 'v' "Cont;c".data leftover] =
      some ({ ctx.req with ty := .DREQ_CONTINUE, target := ctx.resume_thread },
            { ctx with
              req := { ctx.req with ty := .DREQ_CONTINUE, target := ctx.resume_thread } },
            [.pkt "OK"])) ∧
    (process_packet ctx (.pkt 'v' "Cont;t:2a".data []) =
      .next { ctx with req := {} } false
        [.pkt "OK", .notify "Stop:T00thread:2a;"]) ∧
    (process_packet ctx (.pkt 'c' [] leftover) =
      .next { ctx with req := {} } false [.pkt ""]) ∧
    (process_packet ctx (.pkt 's' [] leftover) =
      .next { ctx with req := {} } false [.pkt ""]) := by
  obtain ⟨⟨ty, tg, ma, ml, rg⟩, rt, qt, ssl, na, ns⟩ := ctx
  have h1 : ns = true := hns
  have h2 : ty = .DREQ_NONE := hty
  subst h1
  subst h2
  exact ⟨rfl, rfl, rfl, rfl, rfl, rfl⟩

/-- C6 (amended) witness: `vCont;c` in a fresh non-stop context. -/
theorem resume_requests_record_and_return_witness :
    ({ non_stop := true } : DbgContext).non_stop = true ∧
    process_packet { non_stop := true } (.pkt 'v' "Cont;c".data []) =
      .next { non_stop := true, req := { ty := .DREQ_CONTINUE, target := 0 } }
        true [.pkt "OK"] :=
  ⟨rfl, (resume_requests_record_and_return { non_stop := true } [] rfl rfl).1⟩

end RR
